import Mathlib

/-!
Verification of the novatel-nav-toolkit decode pipeline.

Bytes are modelled as `Nat` values (< 256 in every real input); byte strings
as `List Nat`.  Python integers are `Int` where negative values can occur.
Each definition is a direct translation of the corresponding Python function,
with the source file and lines noted in its doc comment.  Loops that are not
structurally recursive carry an explicit fuel argument whose initial value is
large enough that it is never exhausted on any input (noted at each use).
-/

namespace NavToolkit

/-! ## Configuration constants (config.py) -/

/-- Configuration value `MIN_VALID_ALTITUDE_FT = -1000` (config.py line 98). -/
def MIN_VALID_ALTITUDE_FT : Int := -1000

/-- Configuration value `MAX_VALID_ALTITUDE_FT = 60000` (config.py line 99). -/
def MAX_VALID_ALTITUDE_FT : Int := 60000

/-- Configuration value `ENABLE_ALTITUDE_SANITY_CHECKS = True` (config.py line 100). -/
def ENABLE_ALTITUDE_SANITY_CHECKS : Bool := true

/-- Configuration value `ACCEPTED_DOWNLINK_FORMATS = [17, 18]` (config.py line 104). -/
def ACCEPTED_DOWNLINK_FORMATS : List Nat := [17, 18]

/-- Configuration value `PASSCOM-parser enable switch, `True` (config.py line 92). -/
def ENABLE_PASSCOM_PARSING : Bool := true

/-- Configuration value `ENABLE_GEOMETRIC_ALTITUDE = True` (config.py line 106). -/
def ENABLE_GEOMETRIC_ALTITUDE : Bool := true

/-! ## GDL-90 deframer (gdl90_deframer.py) -/

/-- Downlink format of a frame or payload: `(frame[0] >> 3) & 0x1F`
(gdl90_deframer.py line 233, novatel_passcom_parser.py line 270). -/
def leadingDF : List Nat → Nat
  | [] => 0
  | b :: _ => (b >>> 3) &&& 31

/-- Worker of `GDL90Deframer._unstuff_bytes` (gdl90_deframer.py lines 139-164):
the left-to-right while loop over the frame bytes.  `0x7D` = 125 is the escape
byte, `0x5E` = 94 the escaped flag, `0x5D` = 93 the escaped escape. -/
def unstuffGo : List Nat → List Nat
  | [] => []
  | [a] => [a]                            -- last byte: `i + 1 < len` fails
  | a :: b :: rest =>
    if a = 125 then
      if b = 94 then 126 :: unstuffGo rest
      else if b = 93 then 125 :: unstuffGo rest
      else 125 :: unstuffGo (b :: rest)   -- invalid escape: emit 0x7D, advance 1
    else a :: unstuffGo (b :: rest)

/-- `GDL90Deframer._unstuff_bytes` (gdl90_deframer.py lines 122-166):
`None` exactly on empty input, otherwise the unstuffed bytes. -/
def unstuffBytes (frameData : List Nat) : Option (List Nat) :=
  if frameData = [] then none else some (unstuffGo frameData)

/-- Worker of `GDL90Deframer._find_frame_boundaries` (gdl90_deframer.py
lines 106-120): scans for `0x7E` = 126 flags, pairing a start flag with the
next flag provided at least one byte lies between them; the closing flag
becomes the next start. -/
def findBoundariesGo (i : Nat) (start : Option Nat) : List Nat → List (Nat × Nat)
  | [] => []
  | b :: rest =>
    if b = 126 then
      match start with
      | none => findBoundariesGo (i + 1) (some i) rest
      | some s =>
        (if s + 1 < i then [(s, i)] else []) ++ findBoundariesGo (i + 1) (some i) rest
    else findBoundariesGo (i + 1) start rest

/-- `GDL90Deframer._find_frame_boundaries` (gdl90_deframer.py lines 96-120). -/
def findFrameBoundaries (data : List Nat) : List (Nat × Nat) :=
  findBoundariesGo 0 none data

/-- Validation of an extracted ADS-B payload, `GDL90Deframer._validate_adsb_message`
(gdl90_deframer.py lines 217-238): length between 14 and 18 bytes and leading
downlink format in {17, 18, 19}. -/
def validateAdsbMessage (payload : List Nat) : Bool :=
  if payload.length < 14 || 18 < payload.length then false
  else decide (leadingDF payload ∈ [17, 18, 19])

/-- `GDL90Deframer._extract_adsb_payload` (gdl90_deframer.py lines 168-215):
needs at least 2 bytes, message id `0x26` = 38, at least 14 bytes after the
2-byte header, and a payload of at most 18 bytes passing validation. -/
def extractAdsbPayload (u : List Nat) : Option (List Nat) :=
  match u with
  | m0 :: _ :: _ =>
    if m0 ≠ 38 then none
    else if u.length < 2 + 14 then none
    else
      let payload := u.drop 2
      if 18 < payload.length then none
      else if validateAdsbMessage payload then some payload else none
  | _ => none                              -- fewer than 2 bytes

/-- `GDL90Deframer.deframe_message` (gdl90_deframer.py lines 36-94): find the
frame boundaries, slice out each frame interior, unstuff it, and keep the
ADS-B payloads.  The Python falsy tests `if not unstuffed_data` and
`if adsb_payload` also skip empty byte strings, hence the explicit `= []`
guards. -/
def deframeMessage (raw : List Nat) : List (List Nat) :=
  if raw = [] then []
  else
    (findFrameBoundaries raw).filterMap fun se =>
      let frameData := (raw.drop (se.1 + 1)).take (se.2 - (se.1 + 1))
      match unstuffBytes frameData with
      | none => none
      | some u =>
        if u = [] then none
        else
          match extractAdsbPayload u with
          | none => none
          | some p => if p = [] then none else some p

/-- `GDL90Deframer.is_gdl90_frame` (gdl90_deframer.py lines 240-256): at least
4 bytes, first and last byte `0x7E` = 126, and more than 10 bytes long. -/
def isGdl90Frame (data : List Nat) : Bool :=
  if data.length < 4 then false
  else decide (data.head! = 126) && decide (data.getLast! = 126)
       && decide (10 < data.length)

/-! ## Altitude decoder (adsb_altitude_decoder.py) -/

/-- Loop of `ADSBAltitudeDecoder._convert_gray_to_binary` (adsb_altitude_decoder.py
lines 283-292): `while mask: gray ^= mask; mask >>= 1`.  The fuel is one more
than the initial mask, which bounds the number of iterations since the mask
strictly decreases; it is never exhausted. -/
def grayAux : Nat → Nat → Nat → Nat
  | 0, g, _ => g
  | fuel + 1, g, m => if m = 0 then g else grayAux fuel (g ^^^ m) (m >>> 1)

/-- `ADSBAltitudeDecoder._convert_gray_to_binary` (adsb_altitude_decoder.py
lines 273-296): standard iterative Gray-to-binary conversion starting from
`mask = gray_code >> 1`. -/
def convertGrayToBinary (gray : Nat) : Nat :=
  grayAux (gray >>> 1 + 1) gray (gray >>> 1)

/-- The XOR of a value with all of its right shifts, the specification's
description of the standard Gray-to-binary conversion ("prefix XOR fold of the
value with all of its right shifts").  Written from the spec, for comparison
with `convertGrayToBinary`. -/
def xorShifts (n : Nat) : Nat :=
  if n = 0 then 0 else n ^^^ xorShifts (n >>> 1)
decreasing_by
  simp only [Nat.shiftRight_one]
  omega

/-- Hand-verified Gray-to-binary lookup table from the specification (§8),
matching the (unused) `GILLHAM_TO_BINARY` table of adsb_altitude_decoder.py
lines 39-58. -/
def grayLookup : Nat → Nat
  | 0 => 0 | 1 => 1 | 3 => 2 | 2 => 3
  | 6 => 4 | 7 => 5 | 5 => 6 | 4 => 7
  | 12 => 8 | 13 => 9 | 15 => 10 | 14 => 11
  | 10 => 12 | 11 => 13 | 9 => 14 | 8 => 15
  | _ => 0

/-- `ADSBAltitudeDecoder._decode_gillham_altitude` (adsb_altitude_decoder.py
lines 235-271): Gray-to-binary over the full 13-bit field, 100 ft per count,
1000 ft offset.  The Python function returns `Optional[int]` but its only
`None` path is an unreachable exception handler. -/
def decodeGillhamAltitude (altitudeField : Nat) : Option Int :=
  some ((convertGrayToBinary altitudeField : Int) * 100 - 1000)

/-- 24-bit window of message bytes 2-4 (adsb_altitude_decoder.py line 149). -/
def altitudeBitsOf (msg : List Nat) : Nat :=
  (msg[2]! <<< 16) ||| (msg[3]! <<< 8) ||| msg[4]!

/-- 13-bit altitude field `(altitude_bits >> 4) & 0x1FFF`
(adsb_altitude_decoder.py line 152). -/
def altitudeFieldOf (msg : List Nat) : Nat :=
  (altitudeBitsOf msg >>> 4) &&& 0x1FFF

/-- Q-bit as the code computes it, `(altitude_bits >> 4) & 0x01`
(adsb_altitude_decoder.py line 155): the LOW bit of the 13-bit altitude field,
although the comment on line 154 documents the Q-bit as bit 4 of that field. -/
def qBitOf (msg : List Nat) : Nat :=
  (altitudeBitsOf msg >>> 4) &&& 0x01

/-- Q-bit = 1 reassembly `((altitude_field & 0x1FE0) >> 1) | (altitude_field & 0x000F)`
(adsb_altitude_decoder.py line 165). -/
def altitudeCodeOf (altitudeField : Nat) : Nat :=
  ((altitudeField &&& 0x1FE0) >>> 1) ||| (altitudeField &&& 0x000F)

/-- `ADSBAltitudeDecoder._decode_barometric_altitude` (adsb_altitude_decoder.py
lines 131-195).  The offset-correction quotient `(altitude_ft + 1000) // 25`
uses Python floor division; both branches give `altitude_ft ≥ -1000`, so the
quotient is a natural number and `Int.toNat` is exact. -/
def decodeBarometricAltitude (msg : List Nat) : Option Int :=
  if msg.length < 14 then none
  else
    let field := altitudeFieldOf msg
    let q := qBitOf msg
    let altOpt : Option Int :=
      if q = 1 then some ((altitudeCodeOf field : Int) * 25 - 1000)
      else decodeGillhamAltitude field
    match altOpt with
    | none => none
    | some alt =>
      let check := (Int.fdiv (alt + 1000) 25).toNat
      if (check >>> 6) &&& 0x07 = 5 then some (alt + 1000) else some alt

/-- `ADSBAltitudeDecoder._decode_geometric_altitude` (adsb_altitude_decoder.py
lines 197-233): 12-bit field at bit offset 5, scaled by 6.25 ft.  The Python
float expression `code * 6.25 - 1000` is exact (a multiple of 1/4 well below
2^53), and `int(...)` truncates toward zero, which is `Int.div` on
`code * 25 - 4000` over 4. -/
def decodeGeometricAltitude (msg : List Nat) : Option Int :=
  if msg.length < 14 then none
  else
    let code := (altitudeBitsOf msg >>> 5) &&& 0x0FFF
    some (Int.tdiv ((code : Int) * 25 - 4000) 4)

/-- `ADSBAltitudeDecoder._is_altitude_valid` (adsb_altitude_decoder.py
lines 344-354): `min_valid_altitude <= altitude <= max_valid_altitude`. -/
def isAltitudeValid (minAlt maxAlt alt : Int) : Bool :=
  decide (minAlt ≤ alt ∧ alt ≤ maxAlt)

/-- `ADSBAltitudeDecoder._validate_altitude_data` (adsb_altitude_decoder.py
lines 298-342): each altitude present must be in range; the
barometric/geometric difference check on lines 326-336 only logs a warning
and never fails the validation. -/
def validateAltitudeData (minAlt maxAlt : Int) (baro geo : Option Int) : Bool :=
  if (match baro with
      | some b => !isAltitudeValid minAlt maxAlt b
      | none => false) then false
  else if (match geo with
      | some g => !isAltitudeValid minAlt maxAlt g
      | none => false) then false
  else true

/-- Sanity gate of `ADSBAltitudeDecoder.decode_altitude` (adsb_altitude_decoder.py
lines 112-115): the validation is consulted only when sanity checks are
enabled. -/
def altitudeSanityGate (enable : Bool) (minAlt maxAlt : Int) (baro geo : Option Int) : Bool :=
  if enable then validateAltitudeData minAlt maxAlt baro geo else true

/-- Result record of `ADSBAltitudeDecoder.decode_altitude`: the Python dict
with optional keys `altitude_baro_ft` and `altitude_geo_ft` plus the
`altitude_decoded_at` wall-clock timestamp (adsb_altitude_decoder.py line 119),
modelled as an abstract clock reading. -/
structure AltitudeData where
  baro : Option Int
  geo : Option Int
  decodedAt : Nat
  deriving DecidableEq, Repr

/-- `ADSBAltitudeDecoder.decode_altitude` (adsb_altitude_decoder.py
lines 79-129).  `now` is the value `datetime.now` would return. -/
def decodeAltitude (enable : Bool) (minAlt maxAlt : Int) (now : Nat)
    (msg : List Nat) (typeCode : Nat) : Option AltitudeData :=
  let baro : Option Int :=
    if 9 ≤ typeCode ∧ typeCode ≤ 18 then decodeBarometricAltitude msg else none
  let geo : Option Int :=
    if typeCode = 31 then decodeGeometricAltitude msg else none
  if (baro.isSome || geo.isSome) && enable
      && !validateAltitudeData minAlt maxAlt baro geo then none
  else if baro.isSome || geo.isSome then some ⟨baro, geo, now⟩
  else none

/-! ## NovAtel PASSCOM parser (novatel_passcom_parser.py) -/

/-- Index of the first occurrence of the 2-byte frame marker `0x7E 0x26`
(`self.frame_buffer.find(self.FRAME_START_MARKER)`, novatel_passcom_parser.py
line 102); `none` when the marker is absent. -/
def findMarker : List Nat → Option Nat
  | 126 :: 38 :: _ => some 0
  | _ :: rest => (findMarker rest).map (· + 1)
  | [] => none

/-- `NovAtelPasscomParser._extract_next_frame` (novatel_passcom_parser.py
lines 93-138) as a function from the buffer to the optional frame body and
the updated buffer: no marker keeps at most the last 100 bytes; with a marker
the pre-marker bytes are dropped, the 16-bit big-endian length is read, and a
complete frame body is sliced off the buffer. -/
def extractNextFrame (buf : List Nat) : Option (List Nat) × List Nat :=
  match findMarker buf with
  | none =>
    (none, if 100 < buf.length then buf.drop (buf.length - 100) else buf)
  | some p =>
    match buf.drop p with
    | m0 :: m1 :: hi :: lo :: rest =>
      let dataLength := hi * 256 + lo
      if rest.length < dataLength then (none, m0 :: m1 :: hi :: lo :: rest)
      else (some (rest.take dataLength), rest.drop dataLength)
    | short => (none, short)            -- fewer than 4 bytes after the marker

/-- Byte values the Python wrapper regex treats as ASCII decimal digits. -/
def isDigitByte (b : Nat) : Bool := 48 ≤ b && b ≤ 57

/-- Byte values `0-9`, `A-F`, `a-f` (novatel_passcom_parser.py line 218). -/
def isHexDigitByte (b : Nat) : Bool :=
  (48 ≤ b && b ≤ 57) || (65 ≤ b && b ≤ 70) || (97 ≤ b && b ≤ 102)

/-- Value of an ASCII hex digit byte. -/
def hexVal (b : Nat) : Option Nat :=
  if 48 ≤ b && b ≤ 57 then some (b - 48)
  else if 65 ≤ b && b ≤ 70 then some (b - 55)
  else if 97 ≤ b && b ≤ 102 then some (b - 87)
  else none

/-- ASCII whitespace bytes (tab, LF, VT, FF, CR, space) skipped between digit
pairs by Python `bytes.fromhex`. -/
def isSpaceByte (b : Nat) : Bool :=
  b = 9 || b = 10 || b = 11 || b = 12 || b = 13 || b = 32

/-- ASCII byte values for which Python `str.isspace` holds (and which
`str.strip` therefore removes): the `bytes.fromhex` set plus the separator
control characters 0x1C-0x1F. -/
def isStrSpaceByte (b : Nat) : Bool :=
  isSpaceByte b || b = 28 || b = 29 || b = 30 || b = 31

/-- The byte values of the literal text `Received packet from ` that anchors
the wrapper regex `rb'Received packet from [^:]+:\d+: '`
(novatel_passcom_parser.py line 36). -/
def wrapperLiteral : List Nat :=
  [82, 101, 99, 101, 105, 118, 101, 100, 32, 112, 97, 99, 107, 101, 116, 32,
   102, 114, 111, 109, 32]

/-- End position of an anchored match of the wrapper regex
`Received packet from [^:]+:\d+: ` (novatel_passcom_parser.py line 36).
Because `[^:]+` cannot contain a colon and every shorter candidate for the
greedy `\d+` is followed by a digit, the Python backtracking match is
deterministic: the literal prefix, then the maximal nonempty colon-free run,
`:`, the maximal nonempty digit run, `:`, and a space. -/
def wrapperMatchEnd (data : List Nat) : Option Nat :=
  if data.take 21 = wrapperLiteral then
    let rest := data.drop 21
    let hostLen := (rest.takeWhile (fun b => !(b == 58))).length
    if hostLen = 0 then none
    else
      let rest2 := rest.drop hostLen
      match rest2 with
      | 58 :: rest3 =>
        let digLen := (rest3.takeWhile isDigitByte).length
        if digLen = 0 then none
        else
          match rest3.drop digLen with
          | 58 :: 32 :: _ => some (21 + hostLen + 1 + digLen + 2)
          | _ => none
      | _ => none
  else none

/-- `NovAtelPasscomParser._strip_novatel_wrapper` (novatel_passcom_parser.py
lines 170-198): drop an anchored wrapper-text match, otherwise return the
data unchanged. -/
def stripNovatelWrapper (data : List Nat) : List Nat :=
  match wrapperMatchEnd data with
  | some e => data.drop e
  | none => data

/-- `WRAPPER_PATTERN.search` (novatel_passcom_parser.py line 348): the regex
matches at some start offset. -/
def wrapperSearch : List Nat → Bool
  | [] => (wrapperMatchEnd []).isSome
  | l@(_ :: t) => (wrapperMatchEnd l).isSome || wrapperSearch t

/-- Python `bytes.fromhex`: ASCII whitespace is skipped between digit pairs,
but each pair must be two adjacent hex digits; anything else raises
`ValueError` (modelled as `none`). -/
def pyFromHex : List Nat → Option (List Nat)
  | [] => some []
  | c :: rest =>
    if isSpaceByte c then pyFromHex rest
    else
      match rest with
      | d :: rest2 =>
        match hexVal c, hexVal d with
        | some h, some l => (pyFromHex rest2).map ((h * 16 + l) :: ·)
        | _, _ => none
      | [] => none

/-- Python `str.strip()` on the decoded byte string: remove leading and
trailing characters satisfying `str.isspace`. -/
def pyStrip (l : List Nat) : List Nat :=
  ((l.dropWhile isStrSpaceByte).reverse.dropWhile isStrSpaceByte).reverse

/-- `NovAtelPasscomParser._convert_ascii_hex_if_needed` (novatel_passcom_parser.py
lines 200-247): `none` only for empty input; if the first byte looks like an
ASCII hex digit, decode as ASCII (failing when any byte is ≥ 128), strip,
remove every space/LF/CR, drop a trailing odd character, and hex-decode; on
any failure fall back to the raw bytes. -/
def convertAsciiHexIfNeeded (data : List Nat) : Option (List Nat) :=
  match data with
  | [] => none
  | b :: _ =>
    if isHexDigitByte b then
      if data.all (· < 128) then
        let s := (pyStrip data).filter fun c => !(c == 32 || c == 10 || c == 13)
        let s := if s.length % 2 = 1 then s.dropLast else s
        match pyFromHex s with
        | some bin => some bin
        | none => some data             -- ValueError: treat as binary
      else some data                    -- UnicodeDecodeError: treat as binary
    else some data

/-- Worker of `NovAtelPasscomParser._extract_mode_s_frames`
(novatel_passcom_parser.py lines 249-309).  The fuel starts at the data
length; every iteration consumes at least 14 bytes, so it is never exhausted.
The loop needs at least 2 remaining bytes, picks 14 or 28 from the leading
downlink format, retries an overrunning 28 as 14, and stops on overrun
otherwise; the `0 <= frame_df <= 31` acceptance test of line 296 is kept even
though it always holds. -/
def extractModeSFramesGo : Nat → List Nat → List (List Nat)
  | 0, _ => []
  | fuel + 1, data =>
    match data with
    | b :: _ :: _ =>
      let df := (b >>> 3) &&& 31
      let fl : Nat :=
        if df ∈ ([0, 4, 5, 11, 16, 20, 21] : List Nat) then 14
        else if df ∈ ([16, 17, 18, 19, 20, 21, 24] : List Nat) then 28
        else 14
      if fl ≤ data.length then
        (if (b >>> 3) &&& 31 ≤ 31 then [data.take fl] else [])
          ++ extractModeSFramesGo fuel (data.drop fl)
      else if fl = 28 ∧ 14 ≤ data.length then
        (if (b >>> 3) &&& 31 ≤ 31 then [data.take 14] else [])
          ++ extractModeSFramesGo fuel (data.drop 14)
      else []
    | _ => []

/-- `NovAtelPasscomParser._extract_mode_s_frames` (novatel_passcom_parser.py
lines 249-309). -/
def extractModeSFrames (binaryData : List Nat) : List (List Nat) :=
  extractModeSFramesGo binaryData.length binaryData

/-- `NovAtelPasscomParser._process_frame_data` (novatel_passcom_parser.py
lines 140-168): strip the wrapper text, convert ASCII hex when detected, and
segment into Mode-S frames; the Python falsy tests also reject empty byte
strings. -/
def processFrameData (frameData : List Nat) : List (List Nat) :=
  let cleaned := stripNovatelWrapper frameData
  if cleaned = [] then []
  else
    match convertAsciiHexIfNeeded cleaned with
    | none => []
    | some bin => if bin = [] then [] else extractModeSFrames bin

/-- Frame-extraction loop of `NovAtelPasscomParser.parse_passcom_frame`
(novatel_passcom_parser.py lines 75-81): repeatedly pull a complete frame off
the buffer and process it; the Python `if not frame_data: break` also stops
on an empty frame body.  The fuel starts at the buffer length plus one; each
continuing iteration consumes at least 4 bytes of buffer, so it is never
exhausted. -/
def passcomLoop : Nat → List Nat → List (List Nat) × List Nat
  | 0, buf => ([], buf)
  | fuel + 1, buf =>
    match extractNextFrame buf with
    | (none, buf2) => ([], buf2)
    | (some frameData, buf2) =>
      if frameData = [] then ([], buf2)
      else
        let rest := passcomLoop fuel buf2
        (processFrameData frameData ++ rest.1, rest.2)

/-- `NovAtelPasscomParser.parse_passcom_frame` (novatel_passcom_parser.py
lines 53-91) as a function of the incoming bytes and the instance's
`frame_buffer`, returning the extracted Mode-S frames and the new buffer. -/
def parsePasscomFrame (raw buf : List Nat) : List (List Nat) × List Nat :=
  passcomLoop ((buf ++ raw).length + 1) (buf ++ raw)

/-- `NovAtelPasscomParser.is_passcom_frame` (novatel_passcom_parser.py
lines 333-351): the frame marker occurs somewhere, or the wrapper regex
matches somewhere. -/
def isPasscomFrame (data : List Nat) : Bool :=
  (findMarker data).isSome || wrapperSearch data

/-! ## Orchestrator (adsb_parser.py)

The orchestrator delegates per-field Mode-S decoding to the external pyModeS
library, which is not part of this repository; those leaves are modelled from
the specification (§4.9, "ModeSFieldExtractor", and the identity-decode
character table). -/

/-- Modelled from the spec: pyModeS `adsb.df` — the missing external field
extractor.  ModeSFields gives `downlink_format: u5`, the first 5 bits of the
frame. -/
def dfSpec (msg : List Nat) : Nat := leadingDF msg

/-- Modelled from the spec: pyModeS `adsb.typecode` — the missing external
field extractor.  The `type_code: u5` is the first 5 bits of the ME field
(byte 4) for an Extended Squitter (DF 17/18); other downlink formats have no
type code (`None`). -/
def typecodeSpec (msg : List Nat) : Option Nat :=
  if dfSpec msg = 17 ∨ dfSpec msg = 18 then some ((msg[4]! >>> 3) &&& 31)
  else none

/-- Modelled from the spec: pyModeS `adsb.icao` — the missing external field
extractor.  The 24-bit ICAO identifier is bytes 1-3 of the frame. -/
def icaoSpec (msg : List Nat) : Option Nat :=
  if dfSpec msg = 17 ∨ dfSpec msg = 18 then
    some ((msg[1]! <<< 16) ||| (msg[2]! <<< 8) ||| msg[3]!)
  else none

/-- Modelled from the spec: the 6-bit packed character decode of the identity
message, "value 0 → space, 1-26 → 'A'-'Z', 48-57 → '0'-'9', else '?'"
(§4.9). -/
def char6Spec (v : Nat) : Nat :=
  if v = 0 then 32
  else if 1 ≤ v ∧ v ≤ 26 then 64 + v
  else if 48 ≤ v ∧ v ≤ 57 then v
  else 63

/-- Strip of leading and trailing spaces applied by `.strip()` to the
callsign (adsb_parser.py line 232). -/
def stripSpaces (l : List Nat) : List Nat :=
  ((l.dropWhile (· == 32)).reverse.dropWhile (· == 32)).reverse

/-- Modelled from the spec: pyModeS `adsb.callsign` — the missing external
identity decoder.  Eight 6-bit characters packed into the 48 bits after the
type-code byte (message bytes 5-10), decoded through `char6Spec`. -/
def callsignSpec (msg : List Nat) : List Nat :=
  let n := (((((msg[5]! <<< 8 ||| msg[6]!) <<< 8 ||| msg[7]!) <<< 8
      ||| msg[8]!) <<< 8 ||| msg[9]!) <<< 8 ||| msg[10]!)
  stripSpaces ((List.range 8).map fun i => char6Spec ((n >>> (42 - 6 * i)) &&& 63))

/-- Modelled from the spec: pyModeS `adsb.category` — the missing external
identity decoder; the 3-bit category is the low 3 bits of the first ME
byte. -/
def categorySpec (msg : List Nat) : Nat := msg[4]! &&& 7

/-- Modelled from the spec: pyModeS `adsb.velocity` — the missing external
velocity decoder.  The spec places it outside the core ("velocity decode
(external/simple, not core)") and gives no formula; its numeric output is not
modelled, only its optional shape, so the model always reports no velocity.
None of the theorems below depend on which messages it accepts. -/
def velocitySpec (_msg : List Nat) : Option (Int × Int × Int) := none

/-- Aviation record assembled by `ADSBParser._extract_aviation_data`
(adsb_parser.py lines 225-285): the result dict with its conditional keys.
`parsedTimestamp` models the `datetime.now(timezone.utc)` value of line 227
and `altitudeDecodedAt` the one merged in from the altitude decoder.  The
`latitude`/`longitude` keys are never set: the `adsb.position_with_ref` call
on line 239 passes four reference arguments to a three-parameter function,
so it always raises and the surrounding `try/except: pass` discards it. -/
structure AviationRecord where
  icao : Option Nat
  typeCode : Nat
  parsedTimestamp : Nat
  callsign : Option (List Nat) := none
  category : Option Nat := none
  altitudeBaro : Option Int := none
  altitudeGeo : Option Int := none
  altitudeDecodedAt : Option Nat := none
  speedKnots : Option Int := none
  heading : Option Int := none
  verticalRate : Option Int := none
  deriving DecidableEq, Repr

/-- Python truthiness guard `velocity[i] if velocity[i] else None`
(adsb_parser.py lines 269-271): a zero component is stored as `None`. -/
def truthyInt (v : Int) : Option Int := if v = 0 then none else some v

/-- `ADSBParser._extract_aviation_data` (adsb_parser.py lines 225-285).
The trailing `return data if len(data) > 3 else None` succeeds exactly when
some branch added keys beyond the three base ones; `config.LOG_ALTITUDE_DECODING`
is false, so the legacy-altitude comparison block is skipped. -/
def extractAviationData (now : Nat) (msg : List Nat) (icao : Option Nat)
    (tc : Nat) : Option AviationRecord :=
  let base : AviationRecord := { icao := icao, typeCode := tc, parsedTimestamp := now }
  if 1 ≤ tc ∧ tc ≤ 4 then
    some { base with callsign := some (callsignSpec msg),
                     category := some (categorySpec msg) }
  else if 5 ≤ tc ∧ tc ≤ 18 then
    if 9 ≤ tc ∧ tc ≤ 18 then
      match decodeAltitude ENABLE_ALTITUDE_SANITY_CHECKS MIN_VALID_ALTITUDE_FT
          MAX_VALID_ALTITUDE_FT now msg tc with
      | some a => some { base with altitudeBaro := a.baro, altitudeGeo := a.geo,
                                   altitudeDecodedAt := some a.decodedAt }
      | none => none
    else none                           -- surface position: no key is ever added
  else if tc = 19 then
    match velocitySpec msg with
    | some v => some { base with speedKnots := truthyInt v.1,
                                 heading := truthyInt v.2.1,
                                 verticalRate := truthyInt v.2.2 }
    | none => none
  else if tc = 31 then
    if ENABLE_GEOMETRIC_ALTITUDE then
      match decodeAltitude ENABLE_ALTITUDE_SANITY_CHECKS MIN_VALID_ALTITUDE_FT
          MAX_VALID_ALTITUDE_FT now msg tc with
      | some a => some { base with altitudeBaro := a.baro, altitudeGeo := a.geo,
                                   altitudeDecodedAt := some a.decodedAt }
      | none => none
    else none
  else none

/-- `ADSBParser._parse_adsb_payload` (adsb_parser.py lines 164-223): check the
downlink format against the accepted set, then extract fields and dispatch.
When `adsb.typecode` yields `None` the Python range comparisons raise a
`TypeError` which the caller's handler turns into `None`; with the configured
accepted set {17, 18} the type code is always present. -/
def parseAdsbPayload (accepted : List Nat) (now : Nat) (payload : List Nat) :
    Option AviationRecord :=
  let df := dfSpec payload
  if df ∉ accepted then none
  else
    match typecodeSpec payload with
    | none => none
    | some tc => extractAviationData now payload (icaoSpec payload) tc

/-- Routing outcome of `ADSBParser._preprocess_message`. -/
inductive Route where
  | passcom
  | gdl90
  | raw
  deriving DecidableEq, Repr

/-- Branch selected by the `if/elif/else` chain of
`ADSBParser._preprocess_message` (adsb_parser.py lines 93-136): PASSCOM is
tested first (when the PASSCOM parser is enabled), then GDL-90, then raw
passthrough. -/
def preprocessRoute (enablePasscom : Bool) (data : List Nat) : Route :=
  if enablePasscom && isPasscomFrame data then Route.passcom
  else if isGdl90Frame data then Route.gdl90
  else Route.raw

/-- `ADSBParser._preprocess_message` (adsb_parser.py lines 81-136), with the
PASSCOM instance buffer threaded through explicitly.  The GDL-90 and raw
branches do not touch that buffer. -/
def preprocessMessage (enablePasscom : Bool) (data buf : List Nat) :
    List (List Nat) × List Nat :=
  if enablePasscom && isPasscomFrame data then parsePasscomFrame data buf
  else if isGdl90Frame data then (deframeMessage data, buf)
  else ([data], buf)

/-- Candidate loop of `ADSBParser.parse_message` (adsb_parser.py lines 68-74):
return the first successfully parsed record, `None` when every candidate
fails. -/
def tryCandidates (accepted : List Nat) (now : Nat) :
    List (List Nat) → Option AviationRecord
  | [] => none
  | c :: cs =>
    match parseAdsbPayload accepted now c with
    | some r => some r
    | none => tryCandidates accepted now cs

/-- `ADSBParser.parse_message` (adsb_parser.py lines 40-79): skip empty
input, preprocess into candidate payloads, and return the first successful
parse together with the updated PASSCOM buffer. -/
def parseMessage (enablePasscom : Bool) (accepted : List Nat) (now : Nat)
    (message buf : List Nat) : Option AviationRecord × List Nat :=
  if message = [] then (none, buf)
  else
    let pre := preprocessMessage enablePasscom message buf
    (tryCandidates accepted now pre.1, pre.2)

/-- Timestamp-erasing projection used to compare two decodes of the same
message performed at different wall-clock times. -/
def eraseTimestamps (r : AviationRecord) : AviationRecord :=
  { r with parsedTimestamp := 0, altitudeDecodedAt := none }

/-! ## Concrete test vectors -/

/-- The GDL-90 sample input `7E26008B9A7D5E479967CCD9C82B84D1FFEBCCA07E`
(spec §8, gdl90_deframer.py line 300). -/
def gdl90SampleInput : List Nat :=
  [0x7E, 0x26, 0x00, 0x8B, 0x9A, 0x7D, 0x5E, 0x47, 0x99, 0x67, 0xCC, 0xD9,
   0xC8, 0x2B, 0x84, 0xD1, 0xFF, 0xEB, 0xCC, 0xA0, 0x7E]

/-- The payload `8B9A7E479967CCD9C82B84D1FFEBCCA0` named by the spec. -/
def gdl90SamplePayload : List Nat :=
  [0x8B, 0x9A, 0x7E, 0x47, 0x99, 0x67, 0xCC, 0xD9, 0xC8, 0x2B, 0x84, 0xD1,
   0xFF, 0xEB, 0xCC, 0xA0]

/-- A 14-byte frame whose bytes 2-4 are `00 C3 80`, so its 13-bit altitude
field is 3128 = 0x0C38: the field whose bit 4 (the documented Q-bit position)
is set and whose reassembled altitude code is 1560. -/
def qbitDemoFrame : List Nat :=
  [0x8D, 0x48, 0x00, 0xC3, 0x80, 0, 0, 0, 0, 0, 0, 0, 0, 0]

/-- The repository test message `8D4840D6202CC371C32CE0576098` (DF 17,
type code 4, an identification message). -/
def identFrame : List Nat :=
  [0x8D, 0x48, 0x40, 0xD6, 0x20, 0x2C, 0xC3, 0x71, 0xC3, 0x2C, 0xE0, 0x57,
   0x60, 0x98]

end NavToolkit

namespace NavToolkit

/-! ## Helper lemmas -/

theorem grayAux_xorShifts (fuel : Nat) :
    ∀ m g : Nat, m < fuel → grayAux fuel g m = g ^^^ xorShifts m := by
  induction fuel with
  | zero => intro m g h; exact absurd h (Nat.not_lt_zero m)
  | succ f ih =>
    intro m g h
    by_cases hm : m = 0
    · subst hm
      rw [xorShifts]
      simp [grayAux]
    · have hlt : m >>> 1 < f := by
        simp only [Nat.shiftRight_one]
        omega
      simp only [grayAux, if_neg hm]
      rw [ih (m >>> 1) (g ^^^ m) hlt]
      conv_rhs => rw [xorShifts]
      simp only [if_neg hm]
      exact Nat.xor_assoc g m (xorShifts (m >>> 1))

theorem convertGray_eq_xorShifts (g : Nat) : convertGrayToBinary g = xorShifts g := by
  unfold convertGrayToBinary
  rw [grayAux_xorShifts (g >>> 1 + 1) (g >>> 1) g (Nat.lt_succ_self _)]
  by_cases hg : g = 0
  · subst hg
    simp [xorShifts]
  · conv_rhs => rw [xorShifts]
    simp only [if_neg hg]

theorem altitudeCode_odd (f : Nat) (h : f &&& 1 = 1) : altitudeCodeOf f ≠ 1560 := by
  intro hc
  have h1 : (altitudeCodeOf f).testBit 0 = true := by
    have hmod : f % 2 = 1 := by rwa [Nat.and_one_is_mod] at h
    have hf0 : f.testBit 0 = true := by simp [Nat.testBit, hmod]
    have hc1 : Nat.testBit 8160 1 = false := by decide
    have hc2 : Nat.testBit 15 0 = true := by decide
    simp [altitudeCodeOf, Nat.testBit_lor, Nat.testBit_land, Nat.testBit_shiftRight,
      hf0, hc1, hc2, hmod]
  rw [hc] at h1
  exact absurd h1 (by decide)

/-! ## Claim theorems -/

/-- C5: the KISS/HDLC destuffing pass satisfies, rule by rule: `0x7D 0x5E`
emits `0x7E` and advances 2; `0x7D 0x5D` emits `0x7D` and advances 2; `0x7D`
followed by anything else emits the `0x7D` as-is and advances 1; any other
byte is copied and advances 1; `unstuffBytes` is `none` exactly on empty
input; and the two concrete examples of the spec hold. -/
theorem unstuff_rules :
    (∀ rest, unstuffGo (125 :: 94 :: rest) = 126 :: unstuffGo rest)
  ∧ (∀ rest, unstuffGo (125 :: 93 :: rest) = 125 :: unstuffGo rest)
  ∧ (∀ b rest, b ≠ 94 → b ≠ 93 →
      unstuffGo (125 :: b :: rest) = 125 :: unstuffGo (b :: rest))
  ∧ (∀ a rest, a ≠ 125 → unstuffGo (a :: rest) = a :: unstuffGo rest)
  ∧ (∀ l, unstuffBytes l = none ↔ l = [])
  ∧ unstuffBytes [0x26, 0x00, 0x7D, 0x5E, 0x12] = some [0x26, 0x00, 0x7E, 0x12]
  ∧ unstuffBytes [0x26, 0x00, 0x7D, 0x5D, 0x12] = some [0x26, 0x00, 0x7D, 0x12] := by
  refine ⟨?_, ?_, ?_, ?_, ?_, by decide, by decide⟩
  · intro rest; simp [unstuffGo]
  · intro rest; simp [unstuffGo]
  · intro b rest hb hb2; simp [unstuffGo, hb, hb2]
  · intro a rest ha; cases rest <;> simp [unstuffGo, ha]
  · intro l; cases l <;> simp [unstuffBytes]

/-- C7: on the Q-bit = 0 path the Gillham decoder returns
`gray_to_binary(field) * 100 - 1000`, where the code's Gray-to-binary
conversion equals the prefix XOR fold of the value with all of its right
shifts, and agrees with the spec's hand-verified lookup table on 0..16. -/
theorem gillham_gray_decode :
    (∀ field, decodeGillhamAltitude field
        = some ((convertGrayToBinary field : Int) * 100 - 1000))
  ∧ (∀ g, convertGrayToBinary g = xorShifts g)
  ∧ (∀ g, g < 16 → convertGrayToBinary g = grayLookup g) := by
  refine ⟨fun _ => rfl, convertGray_eq_xorShifts, by decide⟩

/-- C1 (code bug): on `qbitDemoFrame` the altitude field is 3128, whose
documented Q-bit (bit 4) is set and whose reassembled code is 1560 — the
frame that should decode to 38000 ft.  The code instead reads the field's
low bit as the Q-bit (0 here), takes the Gillham path to 208500 ft, and the
sanity check then rejects the message; moreover on the code's q-bit = 1 path
the reassembled code keeps the field's low bit, so it is always odd and can
never equal 1560. -/
theorem barometric_qbit_slip_eval :
    altitudeFieldOf qbitDemoFrame = 3128
  ∧ altitudeFieldOf qbitDemoFrame &&& 0x10 = 0x10
  ∧ altitudeCodeOf (altitudeFieldOf qbitDemoFrame) = 1560
  ∧ qBitOf qbitDemoFrame = 0
  ∧ decodeBarometricAltitude qbitDemoFrame = some 208500
  ∧ decodeAltitude true MIN_VALID_ALTITUDE_FT MAX_VALID_ALTITUDE_FT 0
      qbitDemoFrame 11 = none
  ∧ (∀ f : Nat, f &&& 1 = 1 → altitudeCodeOf f ≠ 1560) := by
  refine ⟨by decide, by decide, by decide, by decide, by decide, by decide, ?_⟩
  exact altitudeCode_odd

/-- C2 (counterexample): the single payload produced from the spec's GDL-90
sample input is 16 bytes long, not 17 as the claim states. -/
theorem gdl90_payload_length_not_17 :
    (deframeMessage gdl90SampleInput).map List.length = [16]
  ∧ (deframeMessage gdl90SampleInput).map List.length ≠ [17] := by
  exact ⟨by decide, by decide⟩

/-- C2 (amended): the GDL-90 sample input deframes to exactly the payload
`8B9A7E479967CCD9C82B84D1FFEBCCA0`, which is 16 bytes with leading DF 17;
and in general a destuffed frame yields a payload only if its first byte is
`0x26`, at least 14 bytes follow the 2-byte header, the payload is at most
18 bytes, and the payload's DF is in {17, 18, 19}. -/
theorem gdl90_deframe_end_to_end :
    deframeMessage gdl90SampleInput = [gdl90SamplePayload]
  ∧ gdl90SamplePayload.length = 16
  ∧ leadingDF gdl90SamplePayload = 17
  ∧ (∀ u p, extractAdsbPayload u = some p →
      u.head? = some 38 ∧ 14 ≤ u.length - 2 ∧ p.length ≤ 18
        ∧ leadingDF p ∈ [17, 18, 19] ∧ p = u.drop 2) := by
  refine ⟨by decide, by decide, by decide, ?_⟩
  intro u p h
  match u with
  | [] => simp [extractAdsbPayload] at h
  | [m0] => simp [extractAdsbPayload] at h
  | m0 :: m1 :: t =>
    have hdrop : List.drop 2 (m0 :: m1 :: t) = t := rfl
    simp only [extractAdsbPayload, hdrop] at h
    split_ifs at h with h1 h2 h3 h4
    simp only [Option.some.injEq] at h
    subst h
    have hm0 : m0 = 38 := by omega
    simp only [validateAdsbMessage] at h4
    split_ifs at h4 with h5
    simp only [decide_eq_true_eq] at h4
    simp only [List.length_cons, not_lt] at h2 h3
    refine ⟨by simp [hm0], ?_, ?_, h4, hdrop.symm⟩
    · simp only [List.length_cons]
      omega
    · simp only [Bool.not_eq_true, Bool.or_eq_false_iff, decide_eq_false_iff_not,
        not_lt] at h5
      exact h5.2

/-- C4: the orchestrator's preprocessing checks PASSCOM before GDL-90, so an
input satisfying both predicates is routed to the PASSCOM parser; the raw
passthrough is taken exactly when both predicates fail; and the selected
route determines which parser processes the bytes. -/
theorem transport_routing_priority :
    (∀ d, isPasscomFrame d = true → isGdl90Frame d = true →
        preprocessRoute ENABLE_PASSCOM_PARSING d = Route.passcom)
  ∧ (∀ d, preprocessRoute ENABLE_PASSCOM_PARSING d = Route.raw
        ↔ isPasscomFrame d = false ∧ isGdl90Frame d = false)
  ∧ (∀ d buf, preprocessRoute ENABLE_PASSCOM_PARSING d = Route.passcom →
        preprocessMessage ENABLE_PASSCOM_PARSING d buf = parsePasscomFrame d buf)
  ∧ (∀ d buf, preprocessRoute ENABLE_PASSCOM_PARSING d = Route.raw →
        preprocessMessage ENABLE_PASSCOM_PARSING d buf = ([d], buf)) := by
  refine ⟨?_, ?_, ?_, ?_⟩
  · intro d hp hg
    simp [preprocessRoute, ENABLE_PASSCOM_PARSING, hp]
  · intro d
    constructor
    · intro h
      by_cases h1 : isPasscomFrame d
      · simp [preprocessRoute, ENABLE_PASSCOM_PARSING, h1] at h
      · by_cases h2 : isGdl90Frame d
        · simp [preprocessRoute, ENABLE_PASSCOM_PARSING, h1, h2] at h
        · exact ⟨by simpa using h1, by simpa using h2⟩
    · rintro ⟨hp, hg⟩
      simp [preprocessRoute, ENABLE_PASSCOM_PARSING, hp, hg]
  · intro d buf h
    by_cases h1 : isPasscomFrame d
    · simp [preprocessMessage, ENABLE_PASSCOM_PARSING, h1]
    · exfalso
      by_cases h2 : isGdl90Frame d <;>
        simp [preprocessRoute, ENABLE_PASSCOM_PARSING, h1, h2] at h
  · intro d buf h
    by_cases h1 : isPasscomFrame d
    · exfalso
      simp [preprocessRoute, ENABLE_PASSCOM_PARSING, h1] at h
    · by_cases h2 : isGdl90Frame d
      · exfalso
        simp [preprocessRoute, ENABLE_PASSCOM_PARSING, h1, h2] at h
      · simp [preprocessMessage, ENABLE_PASSCOM_PARSING, h1, h2]

/-- C9: the orchestrator is a total function — every input yields either a
record or no result; a failing candidate merely moves the loop to the next
candidate; and on nonempty input the result is exactly the first-success
fold over the preprocessed candidates. -/
theorem orchestrator_never_aborts :
    (∀ now msg buf,
        (parseMessage ENABLE_PASSCOM_PARSING ACCEPTED_DOWNLINK_FORMATS now msg buf).1 = none
      ∨ ∃ r, (parseMessage ENABLE_PASSCOM_PARSING ACCEPTED_DOWNLINK_FORMATS now msg buf).1
          = some r)
  ∧ (∀ now c cs, parseAdsbPayload ACCEPTED_DOWNLINK_FORMATS now c = none →
        tryCandidates ACCEPTED_DOWNLINK_FORMATS now (c :: cs)
          = tryCandidates ACCEPTED_DOWNLINK_FORMATS now cs)
  ∧ (∀ now msg buf, msg ≠ [] →
        (parseMessage ENABLE_PASSCOM_PARSING ACCEPTED_DOWNLINK_FORMATS now msg buf).1
          = tryCandidates ACCEPTED_DOWNLINK_FORMATS now
              (preprocessMessage ENABLE_PASSCOM_PARSING msg buf).1) := by
  refine ⟨?_, ?_, ?_⟩
  · intro now msg buf
    cases h : (parseMessage ENABLE_PASSCOM_PARSING ACCEPTED_DOWNLINK_FORMATS now msg buf).1
    · exact Or.inl rfl
    · exact Or.inr ⟨_, rfl⟩
  · intro now c cs h
    simp [tryCandidates, h]
  · intro now msg buf h
    simp [parseMessage, h]

end NavToolkit

namespace NavToolkit

/-! ## PASSCOM reassembly lemmas -/

theorem passcomLoop_nil (n : Nat) : passcomLoop n [] = ([], []) := by
  cases n with
  | zero => rfl
  | succ m => simp [passcomLoop, extractNextFrame, findMarker]

theorem extractNextFrame_complete (hi lo : Nat) (body : List Nat)
    (hL : hi * 256 + lo = body.length) :
    extractNextFrame (126 :: 38 :: hi :: lo :: body) = (some body, []) := by
  simp [extractNextFrame, findMarker, hL]

theorem extractNextFrame_incomplete (hi lo : Nat) (p1 : List Nat)
    (h : p1.length < hi * 256 + lo) :
    extractNextFrame (126 :: 38 :: hi :: lo :: p1)
      = (none, 126 :: 38 :: hi :: lo :: p1) := by
  simp [extractNextFrame, findMarker, h]

theorem parsePasscom_whole (hi lo : Nat) (body : List Nat)
    (hL : hi * 256 + lo = body.length) :
    parsePasscomFrame (126 :: 38 :: hi :: lo :: body) []
      = ((if body = [] then [] else processFrameData body), []) := by
  unfold parsePasscomFrame
  simp only [List.nil_append]
  rw [passcomLoop, extractNextFrame_complete hi lo body hL]
  by_cases hb : body = []
  · simp [hb]
  · simp [hb, passcomLoop_nil]

/-- C3: a PASSCOM frame (marker, 2-byte big-endian length, body) split into
two consecutive `parse()` calls on a fresh parser — marker + length + partial
body first, the remainder second — yields across the two calls exactly the
Mode-S frames of a single whole-frame call on a fresh parser. -/
theorem passcom_split_reassembly (body p1 p2 : List Nat)
    (hsplit : body = p1 ++ p2) (hlen : body.length < 65536) :
    (parsePasscomFrame (126 :: 38 :: (body.length / 256) :: (body.length % 256) :: p1) []).1
      ++ (parsePasscomFrame p2
            ((parsePasscomFrame
                (126 :: 38 :: (body.length / 256) :: (body.length % 256) :: p1) []).2)).1
      = (parsePasscomFrame
          (126 :: 38 :: (body.length / 256) :: (body.length % 256) :: body) []).1 := by
  have hL : body.length / 256 * 256 + body.length % 256 = body.length := by omega
  by_cases hp2 : p2 = []
  · subst hp2
    have hb : p1 = body := by simpa using hsplit.symm
    subst hb
    rw [parsePasscom_whole _ _ p1 hL]
    simp [parsePasscomFrame, passcomLoop_nil]
  · have hpos : 0 < p2.length := List.length_pos.mpr hp2
    have hlt2 : p1.length < body.length / 256 * 256 + body.length % 256 := by
      rw [hL, hsplit]
      simp only [List.length_append]
      omega
    have hfirst : parsePasscomFrame
        (126 :: 38 :: (body.length / 256) :: (body.length % 256) :: p1) []
        = ([], 126 :: 38 :: (body.length / 256) :: (body.length % 256) :: p1) := by
      unfold parsePasscomFrame
      simp only [List.nil_append]
      rw [passcomLoop, extractNextFrame_incomplete _ _ _ hlt2]
    rw [hfirst]
    unfold parsePasscomFrame
    have hcat : (126 :: 38 :: (body.length / 256) :: (body.length % 256) :: p1) ++ p2
        = 126 :: 38 :: (body.length / 256) :: (body.length % 256) :: body := by
      simp [hsplit]
    rw [hcat]
    simp

/-- Witness for the PASSCOM reassembly theorem: an 18-byte frame carrying a
14-byte DF-17 body, split after five body bytes. -/
theorem passcom_split_reassembly_witness :
    (parsePasscomFrame [126, 38, 0, 14, 139, 0, 0, 0, 0] []).1
      ++ (parsePasscomFrame [0, 0, 0, 0, 0, 0, 0, 0, 0]
            ((parsePasscomFrame [126, 38, 0, 14, 139, 0, 0, 0, 0] []).2)).1
      = (parsePasscomFrame
          [126, 38, 0, 14, 139, 0, 0, 0, 0, 0, 0, 0, 0, 0, 0, 0, 0, 0] []).1 :=
  passcom_split_reassembly
    [139, 0, 0, 0, 0, 0, 0, 0, 0, 0, 0, 0, 0, 0]
    [139, 0, 0, 0, 0] [0, 0, 0, 0, 0, 0, 0, 0, 0] rfl (by decide)

end NavToolkit

namespace NavToolkit

/-! ## Mode-S segmentation lemmas -/

theorem leadingDF_take (n : Nat) (hn : 0 < n) (b : Nat) (l : List Nat) :
    leadingDF ((b :: l).take n) = leadingDF (b :: l) := by
  cases n with
  | zero => omega
  | succ m => simp [leadingDF]

theorem extractModeSFramesGo_df (fuel : Nat) :
    ∀ data f, f ∈ extractModeSFramesGo fuel data →
      (leadingDF f ∈ ([16, 20, 21] : List Nat) → f.length = 14)
      ∧ (f.length = 28 → leadingDF f ∈ ([17, 18, 19, 24] : List Nat)) := by
  induction fuel with
  | zero => intro data f h; simp [extractModeSFramesGo] at h
  | succ n ih =>
    intro data f h
    match data with
    | [] => simp [extractModeSFramesGo] at h
    | [b] => simp [extractModeSFramesGo] at h
    | b :: c :: rest =>
      simp only [extractModeSFramesGo] at h
      by_cases h14 : (b >>> 3) &&& 31 ∈ ([0, 4, 5, 11, 16, 20, 21] : List Nat)
      · simp only [h14, if_true] at h
        by_cases hlen : 14 ≤ (b :: c :: rest).length
        · simp only [hlen, if_true, Nat.and_le_right, List.mem_append,
            List.mem_singleton] at h
          rcases h with h | h
          · subst h
            have hlenf : ((b :: c :: rest).take 14).length = 14 := by
              rw [List.length_take]
              omega
            exact ⟨fun _ => hlenf, fun habs => by omega⟩
          · exact ih _ f h
        · simp only [hlen] at h
          simp at h
      · by_cases h28 : (b >>> 3) &&& 31 ∈ ([16, 17, 18, 19, 20, 21, 24] : List Nat)
        · simp only [h14, h28, if_false, if_true] at h
          by_cases hlen28 : 28 ≤ (b :: c :: rest).length
          · simp only [hlen28, if_true, Nat.and_le_right, List.mem_append,
              List.mem_singleton] at h
            rcases h with h | h
            · subst h
              have hlenf : ((b :: c :: rest).take 28).length = 28 := by
                rw [List.length_take]
                omega
              have hdf : leadingDF ((b :: c :: rest).take 28) = (b >>> 3) &&& 31 := by
                rw [leadingDF_take 28 (by omega)]
                rfl
              constructor
              · intro hmem
                exfalso
                rw [hdf] at hmem
                simp only [List.mem_cons, List.mem_singleton, List.not_mem_nil,
                  or_false] at hmem h14
                omega
              · intro _
                rw [hdf]
                simp only [List.mem_cons, List.mem_singleton, List.not_mem_nil,
                  or_false] at h28 h14 ⊢
                omega
            · exact ih _ f h
          · simp only [hlen28, if_false] at h
            by_cases hlen14 : 14 ≤ (b :: c :: rest).length
            · simp only [hlen14, and_true, if_true, Nat.and_le_right, List.mem_append,
                List.mem_singleton, if_pos rfl] at h
              have h' : f = (b :: c :: rest).take 14 ∨ f ∈ extractModeSFramesGo n ((b :: c :: rest).drop 14) := by
                simpa using h
              rcases h' with h | h
              · subst h
                have hlenf : ((b :: c :: rest).take 14).length = 14 := by
                  rw [List.length_take]
                  omega
                exact ⟨fun _ => hlenf, fun habs => by omega⟩
              · exact ih _ f h
            · simp only [hlen14, and_false, if_false] at h
              simp at h
        · simp only [h14, h28, if_false] at h
          by_cases hlen : 14 ≤ (b :: c :: rest).length
          · simp only [hlen, if_true, Nat.and_le_right, List.mem_append,
              List.mem_singleton] at h
            rcases h with h | h
            · subst h
              have hlenf : ((b :: c :: rest).take 14).length = 14 := by
                rw [List.length_take]
                omega
              exact ⟨fun _ => hlenf, fun habs => by omega⟩
            · exact ih _ f h
          · simp only [hlen] at h
            simp at h

/-- C10: in PASSCOM Mode-S segmentation the 14-byte branch is tested first,
so a segment whose leading DF is 16, 20 or 21 — in both DF sets — is always
cut as a 14-byte frame, never 28; a 28-byte frame arises only from leading
DF 17, 18, 19 or 24. -/
theorem mode_s_df_overlap_14_wins (data f : List Nat)
    (h : f ∈ extractModeSFrames data) :
    (leadingDF f ∈ ([16, 20, 21] : List Nat) → f.length = 14)
    ∧ (f.length = 28 → leadingDF f ∈ ([17, 18, 19, 24] : List Nat)) :=
  extractModeSFramesGo_df data.length data f h

/-- Witness for the segmentation theorem: a 14-byte DF-20 frame
(`0xA3 >> 3 = 20`). -/
theorem mode_s_df_overlap_14_wins_witness :
    (leadingDF [163, 0, 0, 0, 0, 0, 0, 0, 0, 0, 0, 0, 0, 0] ∈ ([16, 20, 21] : List Nat) →
      ([163, 0, 0, 0, 0, 0, 0, 0, 0, 0, 0, 0, 0, 0] : List Nat).length = 14)
    ∧ (([163, 0, 0, 0, 0, 0, 0, 0, 0, 0, 0, 0, 0, 0] : List Nat).length = 28 →
      leadingDF [163, 0, 0, 0, 0, 0, 0, 0, 0, 0, 0, 0, 0, 0] ∈ ([17, 18, 19, 24] : List Nat)) :=
  mode_s_df_overlap_14_wins [163, 0, 0, 0, 0, 0, 0, 0, 0, 0, 0, 0, 0, 0]
    [163, 0, 0, 0, 0, 0, 0, 0, 0, 0, 0, 0, 0, 0] (by decide)

end NavToolkit

namespace NavToolkit

/-! ## Altitude validation lemmas -/

theorem validateAltitudeData_eq (mn mx : Int) (baro geo : Option Int) :
    validateAltitudeData mn mx baro geo = true
      ↔ (∀ b, baro = some b → mn ≤ b ∧ b ≤ mx)
        ∧ (∀ g, geo = some g → mn ≤ g ∧ g ≤ mx) := by
  cases baro <;> cases geo <;> simp [validateAltitudeData, isAltitudeValid]

/-- C6: altitude validation passes iff sanity checks are disabled or every
altitude value present lies in [-1000, 60000]; two individually valid
altitudes always pass together, however large their difference; an
out-of-range barometric altitude makes the decode return nothing (rejected,
not clamped); and the boundary values -1001, 60001, -1000, 0, 60000 behave as
the spec lists. -/
theorem altitude_validation_rules :
    (∀ (enable : Bool) (baro geo : Option Int),
        altitudeSanityGate enable MIN_VALID_ALTITUDE_FT MAX_VALID_ALTITUDE_FT baro geo = true
      ↔ (enable = false
          ∨ ((∀ b, baro = some b → MIN_VALID_ALTITUDE_FT ≤ b ∧ b ≤ MAX_VALID_ALTITUDE_FT)
             ∧ (∀ g, geo = some g → MIN_VALID_ALTITUDE_FT ≤ g ∧ g ≤ MAX_VALID_ALTITUDE_FT))))
  ∧ (∀ vb vg : Int,
        isAltitudeValid MIN_VALID_ALTITUDE_FT MAX_VALID_ALTITUDE_FT vb = true →
        isAltitudeValid MIN_VALID_ALTITUDE_FT MAX_VALID_ALTITUDE_FT vg = true →
        validateAltitudeData MIN_VALID_ALTITUDE_FT MAX_VALID_ALTITUDE_FT
          (some vb) (some vg) = true)
  ∧ (∀ (now : Nat) (msg : List Nat) (tc : Nat) (b : Int),
        9 ≤ tc → tc ≤ 18 → decodeBarometricAltitude msg = some b →
        isAltitudeValid MIN_VALID_ALTITUDE_FT MAX_VALID_ALTITUDE_FT b = false →
        decodeAltitude true MIN_VALID_ALTITUDE_FT MAX_VALID_ALTITUDE_FT now msg tc = none)
  ∧ isAltitudeValid MIN_VALID_ALTITUDE_FT MAX_VALID_ALTITUDE_FT (-1001) = false
  ∧ isAltitudeValid MIN_VALID_ALTITUDE_FT MAX_VALID_ALTITUDE_FT 60001 = false
  ∧ isAltitudeValid MIN_VALID_ALTITUDE_FT MAX_VALID_ALTITUDE_FT (-1000) = true
  ∧ isAltitudeValid MIN_VALID_ALTITUDE_FT MAX_VALID_ALTITUDE_FT 0 = true
  ∧ isAltitudeValid MIN_VALID_ALTITUDE_FT MAX_VALID_ALTITUDE_FT 60000 = true := by
  refine ⟨?_, ?_, ?_, by decide, by decide, by decide, by decide, by decide⟩
  · intro enable baro geo
    cases enable with
    | false => simp [altitudeSanityGate]
    | true => simp [altitudeSanityGate, validateAltitudeData_eq]
  · intro vb vg h1 h2
    simp only [isAltitudeValid, decide_eq_true_eq] at h1 h2
    rw [validateAltitudeData_eq]
    constructor
    · intro b hb; injection hb with hb; subst hb; exact h1
    · intro g hg; injection hg with hg; subst hg; exact h2
  · intro now msg tc b h9 h18 hb hv
    have htc : (9 ≤ tc ∧ tc ≤ 18) := ⟨h9, h18⟩
    have htc31 : ¬(tc = 31) := by omega
    simp only [decodeAltitude, if_pos htc, if_neg htc31, hb]
    simp [validateAltitudeData, hv]

end NavToolkit

namespace NavToolkit

/-! ## Decode time-invariance lemmas -/

theorem decodeAltitude_time_inv (e : Bool) (mn mx : Int) (t1 t2 : Nat)
    (msg : List Nat) (tc : Nat) :
    (decodeAltitude e mn mx t1 msg tc).map (fun a => (a.baro, a.geo))
      = (decodeAltitude e mn mx t2 msg tc).map (fun a => (a.baro, a.geo)) := by
  simp only [decodeAltitude]
  split_ifs <;> simp

theorem extractAviationData_time_inv (t1 t2 : Nat) (msg : List Nat)
    (icao : Option Nat) (tc : Nat) :
    (extractAviationData t1 msg icao tc).map eraseTimestamps
      = (extractAviationData t2 msg icao tc).map eraseTimestamps := by
  simp only [extractAviationData]
  split_ifs with h1 h2 h3 h4 h5
  · simp [eraseTimestamps]
  · have h := decodeAltitude_time_inv ENABLE_ALTITUDE_SANITY_CHECKS
      MIN_VALID_ALTITUDE_FT MAX_VALID_ALTITUDE_FT t1 t2 msg tc
    cases ha : decodeAltitude ENABLE_ALTITUDE_SANITY_CHECKS MIN_VALID_ALTITUDE_FT
        MAX_VALID_ALTITUDE_FT t1 msg tc <;>
      cases hb : decodeAltitude ENABLE_ALTITUDE_SANITY_CHECKS MIN_VALID_ALTITUDE_FT
        MAX_VALID_ALTITUDE_FT t2 msg tc <;>
      rw [ha, hb] at h <;> simp at h ⊢
    simp [eraseTimestamps, h.1, h.2]
  · rfl
  · cases hv : velocitySpec msg <;> simp [eraseTimestamps]
  · have h := decodeAltitude_time_inv ENABLE_ALTITUDE_SANITY_CHECKS
      MIN_VALID_ALTITUDE_FT MAX_VALID_ALTITUDE_FT t1 t2 msg tc
    cases ha : decodeAltitude ENABLE_ALTITUDE_SANITY_CHECKS MIN_VALID_ALTITUDE_FT
        MAX_VALID_ALTITUDE_FT t1 msg tc <;>
      cases hb : decodeAltitude ENABLE_ALTITUDE_SANITY_CHECKS MIN_VALID_ALTITUDE_FT
        MAX_VALID_ALTITUDE_FT t2 msg tc <;>
      rw [ha, hb] at h <;> simp at h ⊢
    simp [eraseTimestamps, h.1, h.2]
  · rfl
  · rfl

theorem parseAdsbPayload_time_inv (t1 t2 : Nat) (payload : List Nat) :
    (parseAdsbPayload ACCEPTED_DOWNLINK_FORMATS t1 payload).map eraseTimestamps
      = (parseAdsbPayload ACCEPTED_DOWNLINK_FORMATS t2 payload).map eraseTimestamps := by
  simp only [parseAdsbPayload]
  by_cases h1 : dfSpec payload ∉ ACCEPTED_DOWNLINK_FORMATS
  · rw [if_pos h1, if_pos h1]
  · rw [if_neg h1, if_neg h1]
    cases htc : typecodeSpec payload with
    | none => rfl
    | some tc => exact extractAviationData_time_inv t1 t2 payload (icaoSpec payload) tc

theorem tryCandidates_time_inv (t1 t2 : Nat) (cs : List (List Nat)) :
    (tryCandidates ACCEPTED_DOWNLINK_FORMATS t1 cs).map eraseTimestamps
      = (tryCandidates ACCEPTED_DOWNLINK_FORMATS t2 cs).map eraseTimestamps := by
  induction cs with
  | nil => rfl
  | cons c cs ih =>
    have h := parseAdsbPayload_time_inv t1 t2 c
    simp only [tryCandidates]
    cases h1 : parseAdsbPayload ACCEPTED_DOWNLINK_FORMATS t1 c <;>
      cases h2 : parseAdsbPayload ACCEPTED_DOWNLINK_FORMATS t2 c <;>
      rw [h1, h2] at h <;> simp at h ⊢
    · exact ih
    · exact h
/-- C8 (amended): decoding the same raw message through fresh decoder
instances at two different wall-clock instants yields records identical in
every field except the wall-clock timestamp fields `parsed_timestamp` and
`altitude_decoded_at`, and identical parser state; the decode is otherwise a
deterministic function of the message bytes. -/
theorem decode_time_invariance (t1 t2 : Nat) (msg : List Nat) :
    ((parseMessage ENABLE_PASSCOM_PARSING ACCEPTED_DOWNLINK_FORMATS t1 msg []).1).map
        eraseTimestamps
      = ((parseMessage ENABLE_PASSCOM_PARSING ACCEPTED_DOWNLINK_FORMATS t2 msg []).1).map
          eraseTimestamps
    ∧ (parseMessage ENABLE_PASSCOM_PARSING ACCEPTED_DOWNLINK_FORMATS t1 msg []).2
      = (parseMessage ENABLE_PASSCOM_PARSING ACCEPTED_DOWNLINK_FORMATS t2 msg []).2 := by
  by_cases hm : msg = []
  · subst hm; exact ⟨rfl, rfl⟩
  · constructor
    · simp only [parseMessage, if_neg hm]
      exact tryCandidates_time_inv t1 t2 _
    · simp only [parseMessage, if_neg hm]

/-- C8 (counterexample): the records returned for the same message by two
fresh decodes at clock readings 0 and 1 are not equal — their
`parsed_timestamp` fields differ. -/
theorem decode_repeat_timestamp_differs :
    (parseMessage ENABLE_PASSCOM_PARSING ACCEPTED_DOWNLINK_FORMATS 0 identFrame []).1
      ≠ (parseMessage ENABLE_PASSCOM_PARSING ACCEPTED_DOWNLINK_FORMATS 1 identFrame []).1 := by
  decide
end NavToolkit
